import Mathlib

/-!
Shallow embedding of the salt-cloud VirtualBox provider module
(virtualbox.py): the lifecycle adapter `create`, the hypervisor session
singleton `vb_get_manager`, and the machine operations `vb_clone_vm`,
`vb_create_machine` and `vb_destroy_machine`.

Python dicts of request data are embedded as association lists of `Val`;
exceptions as an `Except PyExc` result; the external collaborators (the
salt host runtime's profile validator, the VirtualBox management API)
as explicit environment parameters and a hypervisor state, with every
call into the hypervisor API recorded in a trace.
-/

namespace VBox

/-- Python values appearing in VM request dicts and event payloads. -/
inductive Val where
  | none : Val
  | bool : Bool → Val
  | str : String → Val
  | dict : List (String × Val) → Val
deriving Repr

mutual

/-- Structural equality on embedded Python values. -/
def Val.beq : Val → Val → Bool
  | .none, .none => true
  | .bool a, .bool b => a == b
  | .str a, .str b => a == b
  | .dict a, .dict b => Val.beqFields a b
  | _, _ => false

/-- Structural equality on dict entry lists. -/
def Val.beqFields : List (String × Val) → List (String × Val) → Bool
  | [], [] => true
  | (k1, v1) :: t1, (k2, v2) :: t2 =>
      k1 == k2 && Val.beq v1 v2 && Val.beqFields t1 t2
  | _, _ => false

end

instance : BEq Val := ⟨Val.beq⟩

/-- Python truthiness, as used by the profile guard in `create`. -/
def Val.truthy : Val → Bool
  | .none => false
  | .bool b => b
  | .str s => !(s.isEmpty)
  | .dict l => !(l.isEmpty)

/-- String rendering used when a value is interpolated into an event tag
by str.format (in the source only VM names, which are strings, reach it). -/
def Val.display : Val → String
  | .none => "None"
  | .bool true => "True"
  | .bool false => "False"
  | .str s => s
  | .dict _ => "<dict>"

/-- Python exceptions relevant to this module. -/
inductive PyExc where
  | keyError : String → PyExc
  | attributeError : PyExc
  | notFound : Val → PyExc
  | timeout : PyExc
  | other : String → PyExc
deriving Repr

/-- A VM request: the `vm_info` dict passed to `create`. -/
abbrev Dict := List (String × Val)

/-- Dict subscript `d[k]`: the value, or a raised KeyError. -/
def lookup (d : Dict) (k : String) : Except PyExc Val :=
  match d.find? (fun p => p.1 == k) with
  | some p => .ok p.2
  | Option.none => .error (.keyError k)

/-- Membership test `k in d`. -/
def hasKey (d : Dict) (k : String) : Bool :=
  (d.find? (fun p => p.1 == k)).isSome

/-- One call into the VirtualBox management API, as recorded in traces. -/
inductive HvCall where
  | initManager : HvCall
  | findMachine : Val → HvCall
  | createMachine : Val → HvCall
  | cloneTo : Val → Val → HvCall
  | waitForCompletion : Nat → HvCall
  | registerMachine : Val → HvCall
  | unregister : Val → Nat → HvCall
  | deleteConfig : Val → HvCall
deriving Repr

abbrev Trace := List HvCall

/-- State of the hypervisor side: the module-global `_virtualboxManager`
(`manager`, with `createdCount` counting how many manager instances were
ever constructed) and the hypervisor inventory of registered machines. -/
structure HvState where
  manager : Option Nat
  createdCount : Nat
  registered : List Val
deriving Repr

/-- Embeds `vb_get_manager`: lazily constructs the process-wide
VirtualBoxManager on first call, caches it in the module global, and
returns the cached handle thereafter. -/
def vb_get_manager (st : HvState) : Nat × HvState × Trace :=
  match st.manager with
  | some m => (m, st, [])
  | Option.none =>
    (st.createdCount,
     { st with manager := some st.createdCount,
               createdCount := st.createdCount + 1 },
     [HvCall.initManager])

/-- Embeds `vbox.findMachine(name)`: the machine handle when `name` is in
the inventory, a not-found error otherwise. -/
def findMachine (st : HvState) (name : Val) : Except PyExc Val :=
  if st.registered.contains name then .ok name else .error (.notFound name)

/-- Embeds `vb_create_machine`: creates a new machine definition with
default OS type and no group, then registers it. -/
def vb_create_machine (st0 : HvState) (name : Val) :
    Except PyExc Val × HvState × Trace :=
  let (_vbox, st1, t1) := vb_get_manager st0
  let t2 := t1 ++ [HvCall.createMachine name, HvCall.registerMachine name]
  (.ok Val.none, { st1 with registered := st1.registered ++ [name] }, t2)

/-- Embeds `vb_clone_vm(name, clone_from, timeout=10000)`: find the source
machine, create a new (unregistered) machine definition, clone the source
into it, wait for completion within `timeout`, then register the new
machine. `completes` models whether the clone operation finishes within
the timeout; the source has no `return` statement, so the result of a
successful clone is Python `None`. -/
def vb_clone_vm (completes : Bool) (st0 : HvState)
    (name clone_from : Val) (timeout : Nat) :
    Except PyExc Val × HvState × Trace :=
  let (_vbox, st1, t1) := vb_get_manager st0
  let t2 := t1 ++ [HvCall.findMachine clone_from]
  match findMachine st1 clone_from with
  | .error e => (.error e, st1, t2)
  | .ok _src =>
    let t3 := t2 ++ [HvCall.createMachine name,
                     HvCall.cloneTo clone_from name,
                     HvCall.waitForCompletion timeout]
    if completes then
      (.ok Val.none,
       { st1 with registered := st1.registered ++ [name] },
       t3 ++ [HvCall.registerMachine name])
    else
      (.error .timeout, st1, t3)

/-- Embeds `vb_destroy_machine(name, timeout=10000)`: find the machine,
unregister it with cleanup mode 2 (detach all media for deletion),
delete its configuration files, and wait for completion within `timeout`.
`completes` models whether the deletion finishes within the timeout. -/
def vb_destroy_machine (completes : Bool) (st0 : HvState)
    (name : Val) (timeout : Nat) :
    Except PyExc Val × HvState × Trace :=
  let (_vbox, st1, t1) := vb_get_manager st0
  let t2 := t1 ++ [HvCall.findMachine name]
  match findMachine st1 name with
  | .error e => (.error e, st1, t2)
  | .ok _m =>
    let st2 := { st1 with registered := st1.registered.erase name }
    let t3 := t2 ++ [HvCall.unregister name 2,
                     HvCall.deleteConfig name,
                     HvCall.waitForCompletion timeout]
    if completes then (.ok Val.none, st2, t3)
    else (.error .timeout, st2, t3)

/-- Outcome of the host runtime's `config.is_profile_configured` call:
either a returned boolean or a raised exception. -/
inductive ProfileOutcome where
  | ret : Bool → ProfileOutcome
  | raise : PyExc → ProfileOutcome
deriving Repr

/-- External collaborators of `create`: the host profile validator, the
configured event transport, and whether the clone finishes in time. -/
structure Env where
  profileCheck : ProfileOutcome
  cloneCompletes : Bool
  transport : Val
deriving Repr

/-- A lifecycle event as fired by `salt.utils.cloud.fire_event`. -/
structure Event where
  description : String
  tag : String
  payload : Val
  transport : Val
deriving Repr

/-- The body of the try-block in `create`: evaluate the condition
`vm_info[\x22profile\x22] and config.is_profile_configured(...) is False`.
`.ok true` means the condition held (so `create` returns False),
`.ok false` means it did not (proceed), `.error e` a raised exception. -/
def profileCheckBlock (env : Env) (vm_info : Dict) : Except PyExc Bool :=
  match lookup vm_info "profile" with
  | .error e => .error e
  | .ok p =>
    if p.truthy then
      match env.profileCheck with
      | .ret b => .ok (b == false)
      | .raise e => .error e
    else .ok false

/-- The try/except around the profile check: only AttributeError is
caught (and treated as pass); any other exception propagates. -/
def profilePrecheck (env : Env) (vm_info : Dict) : Except PyExc Bool :=
  match profileCheckBlock env vm_info with
  | .error PyExc.attributeError => .ok false
  | r => r

/-- Everything `create` produces: its return value or raised exception,
the lifecycle events fired, the final hypervisor state, and the trace of
hypervisor API calls made. -/
structure CreateOut where
  result : Except PyExc Val
  events : List Event
  st : HvState
  calls : Trace
deriving Repr

/-- Embeds `create(vm_info)`: profile precondition check, clone_from
presence check, then the linear lifecycle sequence firing the creating,
requesting, deploying and created events around `vb_clone_vm`
(the deploy step in between is a no-op in the source). -/
def create (env : Env) (st0 : HvState) (vm_info : Dict) : CreateOut :=
  match profilePrecheck env vm_info with
  | .error e => ⟨.error e, [], st0, []⟩
  | .ok true => ⟨.ok (Val.bool false), [], st0, []⟩
  | .ok false =>
    if hasKey vm_info "clone_from" = false then
      ⟨.ok (Val.bool false), [], st0, []⟩
    else
      match lookup vm_info "name" with
      | .error e => ⟨.error e, [], st0, []⟩
      | .ok nameV =>
        match lookup vm_info "profile" with
        | .error e => ⟨.error e, [], st0, []⟩
        | .ok profileV =>
          match lookup vm_info "provider" with
          | .error e => ⟨.error e, [], st0, []⟩
          | .ok providerV =>
            let ev1 : Event :=
              ⟨"starting create",
               "salt/cloud/" ++ nameV.display ++ "/creating",
               Val.dict [("name", nameV), ("profile", profileV),
                         ("provider", providerV)],
               env.transport⟩
            match lookup vm_info "clone_from" with
            | .error e => ⟨.error e, [ev1], st0, []⟩
            | .ok cloneFromV =>
              let requestKwargs : Val :=
                Val.dict [("name", nameV), ("clone_from", cloneFromV)]
              let ev2 : Event :=
                ⟨"requesting instance",
                 "salt/cloud/" ++ nameV.display ++ "/requesting",
                 requestKwargs, env.transport⟩
              match vb_clone_vm env.cloneCompletes st0 nameV cloneFromV 10000 with
              | (.error e, st1, tr) => ⟨.error e, [ev1, ev2], st1, tr⟩
              | (.ok vmResult, st1, tr) =>
                let ev3 : Event :=
                  ⟨"deploying salt",
                   "salt/cloud/" ++ nameV.display ++ "/deploying",
                   Val.dict [], env.transport⟩
                let ev4 : Event :=
                  ⟨"created machine",
                   "salt/cloud/" ++ nameV.display ++ "/created",
                   vmResult, env.transport⟩
                ⟨.ok vmResult, [ev1, ev2, ev3, ev4], st1, tr⟩

-- Concrete fixtures for witnesses and counterexamples.

/-- A hypervisor state holding only the template machine, session not yet
initialized. -/
def st0 : HvState := ⟨Option.none, 0, [Val.str "template1"]⟩

/-- An environment whose profile validator passes and whose clone
completes in time. -/
def env0 : Env := ⟨.ret true, true, Val.str "zeromq"⟩

/-- The end-to-end scenario request. -/
def vmInfo0 : Dict :=
  [("name", Val.str "vm1"), ("profile", Val.dict []),
   ("provider", Val.str "vb1"), ("clone_from", Val.str "template1")]

/-- A hypervisor state with no machines at all, session not initialized. -/
def stEmpty : HvState := ⟨Option.none, 0, []⟩

/-- A hypervisor state with the session already initialized. -/
def stLive : HvState := ⟨some 5, 1, [Val.str "template1"]⟩

/-- An environment whose profile validator judges the profile
misconfigured. -/
def envBadProfile : Env := ⟨.ret false, true, Val.str "zeromq"⟩

/-- An environment whose profile validator raises a ValueError. -/
def envRaise : Env := ⟨.raise (PyExc.other "ValueError"), true, Val.str "zeromq"⟩

/-- An environment whose profile validator raises an AttributeError. -/
def envAttr : Env := ⟨.raise PyExc.attributeError, true, Val.str "zeromq"⟩

/-- An environment whose profile validator raises a generic error. -/
def envBoom : Env := ⟨.raise (PyExc.other "boom"), true, Val.str "zeromq"⟩

/-- A request like `vmInfo0` but with a non-empty (truthy) profile. -/
def vmInfo1 : Dict :=
  [("name", Val.str "vm1"), ("profile", Val.dict [("size", Val.str "small")]),
   ("provider", Val.str "vb1"), ("clone_from", Val.str "template1")]

/-- A request with a profile key but no clone_from key. -/
def vmNoClone : Dict := [("profile", Val.dict [])]

/-- A request with a clone_from key but no profile key. -/
def vmNoProfile : Dict :=
  [("name", Val.str "vm1"), ("provider", Val.str "vb1"),
   ("clone_from", Val.str "template1")]

-- Helper lemmas shared by the claim theorems.

theorem lookup_ok_hasKey {d : Dict} {k : String} {v : Val}
    (h : lookup d k = .ok v) : hasKey d k = true := by
  unfold lookup at h
  unfold hasKey
  cases hf : d.find? (fun p => p.1 == k) with
  | none => rw [hf] at h; exact absurd h (by simp)
  | some p => simp

theorem hasKey_false_lookup {d : Dict} {k : String}
    (h : hasKey d k = false) : lookup d k = .error (.keyError k) := by
  unfold hasKey at h
  unfold lookup
  cases hf : d.find? (fun p => p.1 == k) with
  | none => rfl
  | some p => rw [hf] at h; exact absurd h (by simp)

theorem profilePrecheck_ret_true {env : Env} {vm_info : Dict} {p : Val}
    (hp : lookup vm_info "profile" = .ok p)
    (hr : env.profileCheck = .ret true) :
    profilePrecheck env vm_info = .ok false := by
  unfold profilePrecheck profileCheckBlock
  rw [hp, hr]
  cases p.truthy <;> simp

theorem vb_clone_vm_success (st : HvState) (n : Val) {c : Val} (t : Nat)
    (hreg : st.registered.contains c = true) :
    ∃ st1 tr, vb_clone_vm true st n c t = (.ok Val.none, st1, tr) ∧
      st1.registered = st.registered ++ [n] := by
  cases hm : st.manager <;>
    simp [vb_clone_vm, vb_get_manager, findMachine, hm, hreg]

theorem vb_clone_vm_notfound (completes : Bool) {st : HvState}
    (n : Val) {c : Val} (t : Nat)
    (habsent : st.registered.contains c = false) :
    ∃ st1 tr, vb_clone_vm completes st n c t = (.error (.notFound c), st1, tr) ∧
      st1.registered = st.registered := by
  cases hm : st.manager <;>
    simp [vb_clone_vm, vb_get_manager, findMachine, hm, habsent]

/-- C8: the hypervisor session is a lazily initialized process-wide
singleton. When the module global is unset, vb_get_manager constructs
exactly one new manager, caches it, and returns its handle; when it is
set, vb_get_manager returns the identical cached handle with no state
change and no construction; calling it again right after a call returns
the same handle and state; and the machine operations never invalidate
the cached handle. -/
theorem vb_get_manager_singleton (st : HvState) :
    (st.manager = Option.none →
      (vb_get_manager st).2.1.manager = some (vb_get_manager st).1 ∧
      (vb_get_manager st).2.1.createdCount = st.createdCount + 1 ∧
      (vb_get_manager st).2.2 = [HvCall.initManager]) ∧
    (∀ h, st.manager = some h → vb_get_manager st = (h, st, [])) ∧
    vb_get_manager (vb_get_manager st).2.1 =
      ((vb_get_manager st).1, (vb_get_manager st).2.1, []) ∧
    (∀ h completes n c t, st.manager = some h →
      (vb_clone_vm completes st n c t).2.1.manager = some h ∧
      (vb_destroy_machine completes st n t).2.1.manager = some h) := by
  refine ⟨?_, ?_, ?_, ?_⟩
  · intro hm; simp [vb_get_manager, hm]
  · intro h hm; simp [vb_get_manager, hm]
  · cases hm : st.manager <;> simp [vb_get_manager, hm]
  · intro h completes n c t hm
    constructor
    · cases hf : st.registered.contains c <;> cases completes <;>
        simp [vb_clone_vm, vb_get_manager, findMachine, hm, hf]
    · cases hf : st.registered.contains n <;> cases completes <;>
        simp [vb_destroy_machine, vb_get_manager, findMachine, hm, hf]

/-- Witness for C8 at a state whose session is already initialized:
the call returns the cached handle 5 and leaves the state unchanged. -/
theorem vb_get_manager_singleton_witness :
    vb_get_manager stLive = (5, stLive, []) :=
  (vb_get_manager_singleton stLive).2.1 5 rfl

/-- C9: vb_destroy_machine on the name of a registered machine performs
exactly the sequence findMachine, unregister with cleanup mode 2
(detach all media for deletion), deleteConfig, waitForCompletion with
the given timeout, and fails with a timeout error when the wait
expires and succeeds when the deletion completes. -/
theorem vb_destroy_machine_sequence (st : HvState) (h : Nat)
    (name : Val) (t : Nat)
    (hm : st.manager = some h)
    (hreg : st.registered.contains name = true) :
    (∀ completes, (vb_destroy_machine completes st name t).2.2 =
      [HvCall.findMachine name, HvCall.unregister name 2,
       HvCall.deleteConfig name, HvCall.waitForCompletion t]) ∧
    (vb_destroy_machine false st name t).1 = .error .timeout ∧
    (vb_destroy_machine true st name t).1 = .ok Val.none := by
  refine ⟨fun completes => ?_, ?_, ?_⟩
  · cases completes <;>
      simp [vb_destroy_machine, vb_get_manager, findMachine, hm, hreg]
  · simp [vb_destroy_machine, vb_get_manager, findMachine, hm, hreg]
  · simp [vb_destroy_machine, vb_get_manager, findMachine, hm, hreg]

/-- Witness for C9: destroying template1 in the live fixture records the
four-call sequence and times out when the deletion does not complete. -/
theorem vb_destroy_machine_sequence_witness :
    (vb_destroy_machine false stLive (Val.str "template1") 10000).2.2 =
      [HvCall.findMachine (Val.str "template1"),
       HvCall.unregister (Val.str "template1") 2,
       HvCall.deleteConfig (Val.str "template1"),
       HvCall.waitForCompletion 10000] ∧
    (vb_destroy_machine false stLive (Val.str "template1") 10000).1 =
      .error .timeout :=
  ⟨(vb_destroy_machine_sequence stLive 5 (Val.str "template1") 10000
      rfl rfl).1 false,
   (vb_destroy_machine_sequence stLive 5 (Val.str "template1") 10000
      rfl rfl).2.1⟩

/-- C5: when the wait for the clone operation exceeds the timeout,
vb_clone_vm fails with a timeout error and the inventory of registered
machines is unchanged (the new machine is not registered); registration
of the new machine is recorded only in runs where the wait succeeded. -/
theorem vb_clone_vm_timeout_unregistered (st : HvState) (name c : Val)
    (t : Nat) (hreg : st.registered.contains c = true) :
    (vb_clone_vm false st name c t).1 = .error .timeout ∧
    (vb_clone_vm false st name c t).2.1.registered = st.registered ∧
    (∀ completes,
      HvCall.registerMachine name ∈ (vb_clone_vm completes st name c t).2.2 →
      completes = true) := by
  refine ⟨?_, ?_, ?_⟩
  · cases hm : st.manager <;>
      simp [vb_clone_vm, vb_get_manager, findMachine, hm, hreg]
  · cases hm : st.manager <;>
      simp [vb_clone_vm, vb_get_manager, findMachine, hm, hreg]
  · intro completes hmem
    cases completes
    · exfalso
      cases hm : st.manager <;>
        simp [vb_clone_vm, vb_get_manager, findMachine, hm, hreg] at hmem
    · rfl

/-- Witness for C5: a clone of template1 that does not finish within the
timeout fails with a timeout error and leaves the inventory as it was. -/
theorem vb_clone_vm_timeout_unregistered_witness :
    (vb_clone_vm false st0 (Val.str "vm1") (Val.str "template1") 10000).1 =
      .error .timeout ∧
    (vb_clone_vm false st0 (Val.str "vm1") (Val.str "template1") 10000).2.1.registered =
      [Val.str "template1"] :=
  ⟨(vb_clone_vm_timeout_unregistered st0 (Val.str "vm1") (Val.str "template1")
      10000 rfl).1,
   (vb_clone_vm_timeout_unregistered st0 (Val.str "vm1") (Val.str "template1")
      10000 rfl).2.1⟩

/-- C1: on a request with name, profile, provider and clone_from present,
a profile the validator passes, a source machine present in the
inventory, and a clone wait that succeeds, create emits exactly the four
lifecycle events creating, requesting, deploying, created, in that
order, with tags salt/cloud/NAME/PHASE, and no other events. -/
theorem create_success_four_events (env : Env) (st : HvState)
    (vm_info : Dict) (n : String) (p pr : Val) (c : String)
    (hname : lookup vm_info "name" = .ok (Val.str n))
    (hprofile : lookup vm_info "profile" = .ok p)
    (hprovider : lookup vm_info "provider" = .ok pr)
    (hclone : lookup vm_info "clone_from" = .ok (Val.str c))
    (hvalid : env.profileCheck = .ret true)
    (hfound : st.registered.contains (Val.str c) = true)
    (hwait : env.cloneCompletes = true) :
    (create env st vm_info).events.map Event.tag =
      ["salt/cloud/" ++ n ++ "/creating",
       "salt/cloud/" ++ n ++ "/requesting",
       "salt/cloud/" ++ n ++ "/deploying",
       "salt/cloud/" ++ n ++ "/created"] := by
  have hpp := profilePrecheck_ret_true hprofile hvalid
  have hhk := lookup_ok_hasKey hclone
  obtain ⟨st1, tr, hc, -⟩ := vb_clone_vm_success st (Val.str n) 10000 hfound
  simp [create, hpp, hhk, hname, hprofile, hprovider, hclone, hwait, hc,
        Val.display]

/-- Witness for C1: the end-to-end scenario emits exactly the four tags. -/
theorem create_success_four_events_witness :
    (create env0 st0 vmInfo0).events.map Event.tag =
      ["salt/cloud/vm1/creating", "salt/cloud/vm1/requesting",
       "salt/cloud/vm1/deploying", "salt/cloud/vm1/created"] :=
  create_success_four_events env0 st0 vmInfo0 "vm1" (Val.dict [])
    (Val.str "vb1") "template1" rfl rfl rfl rfl rfl rfl rfl

/-- C4: when clone_from names a machine absent from the inventory,
create fails with the hypervisor's not-found error after emitting
exactly the creating and requesting events, and before deploying and
created. -/
theorem create_notfound_after_two_events (env : Env) (st : HvState)
    (vm_info : Dict) (n : String) (p pr : Val) (c : String)
    (hname : lookup vm_info "name" = .ok (Val.str n))
    (hprofile : lookup vm_info "profile" = .ok p)
    (hprovider : lookup vm_info "provider" = .ok pr)
    (hclone : lookup vm_info "clone_from" = .ok (Val.str c))
    (hvalid : env.profileCheck = .ret true)
    (habsent : st.registered.contains (Val.str c) = false) :
    (create env st vm_info).result = .error (.notFound (Val.str c)) ∧
    (create env st vm_info).events.map Event.tag =
      ["salt/cloud/" ++ n ++ "/creating",
       "salt/cloud/" ++ n ++ "/requesting"] := by
  have hpp := profilePrecheck_ret_true hprofile hvalid
  have hhk := lookup_ok_hasKey hclone
  obtain ⟨st1, tr, hc, -⟩ :=
    vb_clone_vm_notfound env.cloneCompletes (Val.str n) 10000 habsent
  constructor <;>
    simp [create, hpp, hhk, hname, hprofile, hprovider, hclone, hc,
          Val.display]

/-- Witness for C4: the end-to-end request against an empty inventory
fails with not-found after exactly the creating and requesting events. -/
theorem create_notfound_after_two_events_witness :
    (create env0 stEmpty vmInfo0).result =
      .error (.notFound (Val.str "template1")) ∧
    (create env0 stEmpty vmInfo0).events.map Event.tag =
      ["salt/cloud/vm1/creating", "salt/cloud/vm1/requesting"] :=
  ⟨(create_notfound_after_two_events env0 stEmpty vmInfo0 "vm1"
      (Val.dict []) (Val.str "vb1") "template1" rfl rfl rfl rfl rfl rfl).1,
   (create_notfound_after_two_events env0 stEmpty vmInfo0 "vm1"
      (Val.dict []) (Val.str "vb1") "template1" rfl rfl rfl rfl rfl rfl).2⟩

/-- C6: on a request whose profile is present and truthy and which the
host validator judges misconfigured, create returns False before any
event is emitted and before any hypervisor call. -/
theorem create_invalid_profile_no_side_effects (env : Env) (st : HvState)
    (vm_info : Dict) (p : Val)
    (hprofile : lookup vm_info "profile" = .ok p)
    (htruthy : p.truthy = true)
    (hinvalid : env.profileCheck = .ret false) :
    (create env st vm_info).result = .ok (Val.bool false) ∧
    (create env st vm_info).events = [] ∧
    (create env st vm_info).calls = [] ∧
    (create env st vm_info).st = st := by
  have hpp : profilePrecheck env vm_info = .ok true := by
    simp [profilePrecheck, profileCheckBlock, hprofile, htruthy, hinvalid]
  simp [create, hpp]

/-- Witness for C6: a misconfigured non-empty profile makes create
return False with no events. -/
theorem create_invalid_profile_no_side_effects_witness :
    (create envBadProfile st0 vmInfo1).result = .ok (Val.bool false) ∧
    (create envBadProfile st0 vmInfo1).events = [] :=
  ⟨(create_invalid_profile_no_side_effects envBadProfile st0 vmInfo1
      (Val.dict [("size", Val.str "small")]) rfl rfl rfl).1,
   (create_invalid_profile_no_side_effects envBadProfile st0 vmInfo1
      (Val.dict [("size", Val.str "small")]) rfl rfl rfl).2.1⟩

/-- C2 as stated is false: a request lacking both clone_from and profile
makes create raise an uncaught KeyError for the profile subscript
instead of returning a failure value. -/
theorem create_missing_clone_and_profile_raises :
    (create env0 st0 ([] : Dict)).result = .error (.keyError "profile") ∧
    (create env0 st0 ([] : Dict)).result ≠ .ok (Val.bool false) :=
  ⟨rfl, fun h => Except.noConfusion h⟩

/-- C2 amended: for every request lacking the clone_from key, create
emits zero events, performs zero hypervisor calls and leaves the
hypervisor state unchanged; and whenever the profile precondition check
does not raise an uncaught exception, create returns the failure value
False. -/
theorem create_missing_clone_from_no_side_effects (env : Env)
    (st : HvState) (vm_info : Dict)
    (hmiss : hasKey vm_info "clone_from" = false) :
    ((create env st vm_info).events = [] ∧
     (create env st vm_info).calls = [] ∧
     (create env st vm_info).st = st) ∧
    ((∀ e, profilePrecheck env vm_info ≠ .error e) →
      (create env st vm_info).result = .ok (Val.bool false)) := by
  cases hpp : profilePrecheck env vm_info with
  | error e =>
    exact ⟨by simp [create, hpp], fun hne => absurd rfl (hne e)⟩
  | ok b =>
    cases b
    · exact ⟨by simp [create, hpp, hmiss],
             fun _ => by simp [create, hpp, hmiss]⟩
    · exact ⟨by simp [create, hpp], fun _ => by simp [create, hpp]⟩

/-- Witness for C2 amended: a request with a profile key but no
clone_from returns False with no events. -/
theorem create_missing_clone_from_witness :
    (create env0 st0 vmNoClone).result = .ok (Val.bool false) ∧
    (create env0 st0 vmNoClone).events = [] :=
  ⟨(create_missing_clone_from_no_side_effects env0 st0 vmNoClone rfl).2
      (fun _ h => Except.noConfusion h),
   (create_missing_clone_from_no_side_effects env0 st0 vmNoClone rfl).1.1⟩

/-- C3: contrary to the claim (and to the docstring of vb_clone_vm,
which promises a dict of the resulting VM), a successful clone returns
Python None because vb_clone_vm has no return statement, so the value
create returns after the created event is None — falsy and empty, not a
non-empty dict. -/
theorem create_success_returns_none :
    (vb_clone_vm true st0 (Val.str "vm1") (Val.str "template1") 10000).1 =
      .ok Val.none ∧
    (create env0 st0 vmInfo0).result = .ok Val.none ∧
    Val.none.truthy = false :=
  ⟨rfl, rfl, rfl⟩

/-- C7 as stated is false: a ValueError raised by the profile validator
propagates out of create (no event is emitted, the lifecycle does not
proceed) instead of being caught and treated as no profile constraints. -/
theorem create_profile_check_valueerror_propagates :
    (create envRaise st0 vmInfo1).result = .error (.other "ValueError") ∧
    (create envRaise st0 vmInfo1).events = [] :=
  ⟨rfl, rfl⟩

/-- C7 amended: only an AttributeError raised during the profile
configuration check is caught and treated as no profile constraints
(the precheck proceeds); any other exception propagates out of create,
with no events and no hypervisor calls. -/
theorem create_profile_check_catches_only_attributeerror
    (env : Env) (st : HvState) (vm_info : Dict) (p : Val) (e : PyExc)
    (hprofile : lookup vm_info "profile" = .ok p)
    (htruthy : p.truthy = true)
    (hraise : env.profileCheck = .raise e) :
    (e = .attributeError → profilePrecheck env vm_info = .ok false) ∧
    (e ≠ .attributeError →
      (create env st vm_info).result = .error e ∧
      (create env st vm_info).events = [] ∧
      (create env st vm_info).calls = []) := by
  have hblock : profileCheckBlock env vm_info = .error e := by
    simp [profileCheckBlock, hprofile, htruthy, hraise]
  constructor
  · rintro rfl
    simp [profilePrecheck, hblock]
  · intro hne
    have hpp : profilePrecheck env vm_info = .error e := by
      unfold profilePrecheck
      rw [hblock]
      cases e <;> first | exact absurd rfl hne | rfl
    simp [create, hpp]

/-- Witness for C7 amended: an AttributeError is swallowed by the
precheck, while a generic error propagates out of create. -/
theorem create_profile_check_catches_only_attributeerror_witness :
    profilePrecheck envAttr vmInfo1 = .ok false ∧
    (create envBoom st0 vmInfo1).result = .error (.other "boom") :=
  ⟨(create_profile_check_catches_only_attributeerror envAttr st0 vmInfo1
      (Val.dict [("size", Val.str "small")]) .attributeError
      rfl rfl rfl).1 rfl,
   ((create_profile_check_catches_only_attributeerror envBoom st0 vmInfo1
      (Val.dict [("size", Val.str "small")]) (.other "boom")
      rfl rfl rfl).2 (fun h => PyExc.noConfusion h)).1⟩

/-- C10: a request without the profile key makes create raise an
uncaught KeyError (the handler catches only AttributeError), with no
events and no hypervisor calls; the error is not converted into a
failure return. -/
theorem create_missing_profile_raises (env : Env) (st : HvState)
    (vm_info : Dict)
    (hmiss : hasKey vm_info "profile" = false) :
    (create env st vm_info).result = .error (.keyError "profile") ∧
    (create env st vm_info).events = [] ∧
    (create env st vm_info).calls = [] := by
  have hlook := hasKey_false_lookup hmiss
  have hpp : profilePrecheck env vm_info = .error (.keyError "profile") := by
    simp [profilePrecheck, profileCheckBlock, hlook]
  simp [create, hpp]

/-- Witness for C10: a request with clone_from but no profile key raises
KeyError with no events. -/
theorem create_missing_profile_raises_witness :
    (create env0 st0 vmNoProfile).result = .error (.keyError "profile") ∧
    (create env0 st0 vmNoProfile).events = [] :=
  ⟨(create_missing_profile_raises env0 st0 vmNoProfile rfl).1,
   (create_missing_profile_raises env0 st0 vmNoProfile rfl).2.1⟩

end VBox
